import Mathlib

/-!
Shallow embedding of `src/stream_web.py` (GradientViz): the function
registry dispatch, the grid sampler, the point evaluator, the slice
sampler with tangent segments, and the gradient-arrow annotation.
Machine floats are modelled as real numbers.
-/

namespace GradientViz

noncomputable section

/-- The scalar field selected by the UI string `func_type`
(lines 24-35 of `stream_web.py`): a chain of string comparisons
with a catch-all `else` branch for the Gaussian. -/
def f (funcType : String) (x y : ℝ) : ℝ :=
  if funcType = "Paraboloid (x² + y²)" then x ^ 2 + y ^ 2
  else if funcType = "Saddle (x² - y²)" then x ^ 2 - y ^ 2
  else if funcType = "Wave Surface" then Real.sin x + Real.cos y
  else Real.exp (-(x ^ 2 + y ^ 2) / 4)

/-- The hand-coded gradient field selected by `func_type`
(lines 24-35 of `stream_web.py`). -/
def grad (funcType : String) (x y : ℝ) : ℝ × ℝ :=
  if funcType = "Paraboloid (x² + y²)" then (2 * x, 2 * y)
  else if funcType = "Saddle (x² - y²)" then (2 * x, -2 * y)
  else if funcType = "Wave Surface" then (Real.cos x, -Real.sin y)
  else (-x / 2 * Real.exp (-(x ^ 2 + y ^ 2) / 4),
        -y / 2 * Real.exp (-(x ^ 2 + y ^ 2) / 4))

/-- `np.linspace a b n` at index `i` (uniform grid, endpoints included):
`a + (b - a) * i / (n - 1)`. -/
def linspace (a b : ℝ) (n : ℕ) (i : ℕ) : ℝ :=
  a + (b - a) * i / ((n - 1 : ℕ) : ℝ)

/-- The X axis coordinate `x[i]` from `x = np.linspace(-5, 5, 50)` (line 38). -/
def xcoord (i : ℕ) : ℝ := linspace (-5) 5 50 i

/-- The Y axis coordinate `y[i]` from `y = np.linspace(-5, 5, 50)` (line 39). -/
def ycoord (i : ℕ) : ℝ := linspace (-5) 5 50 i

/-- The X axis coordinate list `x` (line 38). -/
def xs : List ℝ := (List.range 50).map xcoord

/-- The Y axis coordinate list `y` (line 39). -/
def ys : List ℝ := (List.range 50).map ycoord

/-- The mesh `X` from `X, Y = np.meshgrid(x, y)` (line 40):
row `i`, column `j` holds `x[j]`. -/
def meshX : List (List ℝ) :=
  (List.range 50).map (fun _i => (List.range 50).map (fun j => xcoord j))

/-- The mesh `Y` from `X, Y = np.meshgrid(x, y)` (line 40):
row `i`, column `j` holds `y[i]`. -/
def meshY : List (List ℝ) :=
  (List.range 50).map (fun i => (List.range 50).map (fun _j => ycoord i))

/-- The grid `Z = f(X, Y)` (line 41): `f` applied elementwise to the mesh. -/
def meshZ (funcType : String) : List (List ℝ) :=
  (List.range 50).map (fun i => (List.range 50).map (fun j =>
    f funcType (xcoord j) (ycoord i)))

/-- The X-direction slice `z_x = f(x, py)` (line 104): `f` over the full
X grid with `py` held fixed. -/
def sliceX (funcType : String) (py : ℝ) : List ℝ :=
  xs.map (fun xv => f funcType xv py)

/-- The Y-direction slice `z_y = f(px, y)` (line 119): `f` over the full
Y grid with `px` held fixed. -/
def sliceY (funcType : String) (px : ℝ) : List ℝ :=
  ys.map (fun yv => f funcType px yv)

/-- The X-slice tangent segment (lines 110-112): abscissas
`t_x = [px - 1.5, px + 1.5]` and ordinates `t_z = pz + grad_x * (t_x - px)`,
returned as the two endpoints. -/
def tangentX (funcType : String) (px py : ℝ) : (ℝ × ℝ) × (ℝ × ℝ) :=
  let pz := f funcType px py
  let gx := (grad funcType px py).1
  ((px - 1.5, pz + gx * ((px - 1.5) - px)),
   (px + 1.5, pz + gx * ((px + 1.5) - px)))

/-- The Y-slice tangent segment (lines 125-127): abscissas
`t_y = [py - 1.5, py + 1.5]` and ordinates `t_z_y = pz + grad_y * (t_y - py)`. -/
def tangentY (funcType : String) (px py : ℝ) : (ℝ × ℝ) × (ℝ × ℝ) :=
  let pz := f funcType px py
  let gy := (grad funcType px py).2
  ((py - 1.5, pz + gy * ((py - 1.5) - py)),
   (py + 1.5, pz + gy * ((py + 1.5) - py)))

/-- The line through two points `p` and `q` of the plane, as a function of
the abscissa. -/
def lineThrough (p q : ℝ × ℝ) (t : ℝ) : ℝ :=
  p.2 + (q.2 - p.2) / (q.1 - p.1) * (t - p.1)

/-- The gradient-arrow annotation on the contour plot (lines 82-87):
the pair (tip, anchor) where the tip is
`(px + grad_x * arrow_scale, py + grad_y * arrow_scale)` and the anchor is
`(ax, ay) = (px, py)`. -/
def gradientArrow (funcType : String) (px py s : ℝ) : (ℝ × ℝ) × (ℝ × ℝ) :=
  let g := grad funcType px py
  ((px + g.1 * s, py + g.2 * s), (px, py))

/-- All numeric outputs of one run of the script that the presentation
layer consumes. -/
structure Outputs where
  X : List (List ℝ)
  Y : List (List ℝ)
  Z : List (List ℝ)
  pz : ℝ
  gx : ℝ
  gy : ℝ
  z_x : List ℝ
  z_y : List ℝ
  tanX : (ℝ × ℝ) × (ℝ × ℝ)
  tanY : (ℝ × ℝ) × (ℝ × ℝ)
  arrow : (ℝ × ℝ) × (ℝ × ℝ)

/-- One full top-to-bottom run of the script (lines 24-130) on the current
inputs, collecting every numeric output. -/
def compute (funcType : String) (px py s : ℝ) : Outputs where
  X := meshX
  Y := meshY
  Z := meshZ funcType
  pz := f funcType px py
  gx := (grad funcType px py).1
  gy := (grad funcType px py).2
  z_x := sliceX funcType py
  z_y := sliceY funcType px
  tanX := tangentX funcType px py
  tanY := tangentY funcType px py
  arrow := gradientArrow funcType px py s

/-- A framework-driven re-run: the script is straight-line and reads no
`st.session_state` or cache, so the outputs of the previous run (`prev`,
possibly none) are discarded and everything is recomputed from the current
inputs. -/
def rerun (funcType : String) (px py s : ℝ)
    (prev : Option Outputs) : Outputs :=
  match prev with
  | _ => compute funcType px py s

/-- Division as Python evaluates it on floats: raises (here: `none`) when
the divisor is zero. -/
def pydiv (a b : ℝ) : Option ℝ :=
  if b = 0 then none else some (a / b)

/-- The scalar-field evaluation with every division checked (the only
partial operations in the bodies on lines 24-35 are the divisions). -/
def fE (funcType : String) (x y : ℝ) : Option ℝ :=
  if funcType = "Paraboloid (x² + y²)" then some (x ^ 2 + y ^ 2)
  else if funcType = "Saddle (x² - y²)" then some (x ^ 2 - y ^ 2)
  else if funcType = "Wave Surface" then some (Real.sin x + Real.cos y)
  else (pydiv (-(x ^ 2 + y ^ 2)) 4).map Real.exp

/-- The gradient-field evaluation with every division checked. -/
def gradE (funcType : String) (x y : ℝ) : Option (ℝ × ℝ) :=
  if funcType = "Paraboloid (x² + y²)" then some (2 * x, 2 * y)
  else if funcType = "Saddle (x² - y²)" then some (2 * x, -2 * y)
  else if funcType = "Wave Surface" then some (Real.cos x, -Real.sin y)
  else
    (pydiv (-x) 2).bind fun a =>
    (pydiv (-y) 2).bind fun b =>
    (pydiv (-(x ^ 2 + y ^ 2)) 4).map fun u =>
      (a * Real.exp u, b * Real.exp u)

end

/-- Reading a mapped range list at an in-bounds index yields the mapped
value. -/
lemma getD_map_range {α : Type} (n : ℕ) (g : ℕ → α) (i : ℕ) (d : α)
    (h : i < n) : ((List.range n).map g).getD i d = g i := by
  rw [List.getD_eq_getElem?_getD, List.getElem?_map, List.getElem?_range h]
  rfl

/-- C1: for each of the four UI identifiers, the registry's scalar field
and gradient field are exactly the closed-form pair of the spec table,
for every point. -/
theorem registry_matches_spec_table (x y : ℝ) :
    f "Paraboloid (x² + y²)" x y = x ^ 2 + y ^ 2 ∧
    grad "Paraboloid (x² + y²)" x y = (2 * x, 2 * y) ∧
    f "Saddle (x² - y²)" x y = x ^ 2 - y ^ 2 ∧
    grad "Saddle (x² - y²)" x y = (2 * x, -2 * y) ∧
    f "Wave Surface" x y = Real.sin x + Real.cos y ∧
    grad "Wave Surface" x y = (Real.cos x, -Real.sin y) ∧
    f "Gaussian" x y = Real.exp (-(x ^ 2 + y ^ 2) / 4) ∧
    grad "Gaussian" x y = (-x / 2 * Real.exp (-(x ^ 2 + y ^ 2) / 4),
      -y / 2 * Real.exp (-(x ^ 2 + y ^ 2) / 4)) := by
  refine ⟨?_, ?_, ?_, ?_, ?_, ?_, ?_, ?_⟩ <;> simp [f, grad]

/-- C3: the derived quantities of a run are `pz = f(px,py)` and
`(gx,gy) = grad(px,py)`, and the two tangent segments have exactly the
endpoints `(px ± 1.5, pz + gx·(±1.5))` and `(py ± 1.5, pz + gy·(±1.5))`. -/
theorem derived_quantities_and_tangent_endpoints (ft : String)
    (px py s : ℝ) :
    (compute ft px py s).pz = f ft px py ∧
    (compute ft px py s).gx = (grad ft px py).1 ∧
    (compute ft px py s).gy = (grad ft px py).2 ∧
    (compute ft px py s).tanX =
      ((px - 1.5, f ft px py + (grad ft px py).1 * (-1.5)),
       (px + 1.5, f ft px py + (grad ft px py).1 * 1.5)) ∧
    (compute ft px py s).tanY =
      ((py - 1.5, f ft px py + (grad ft px py).2 * (-1.5)),
       (py + 1.5, f ft px py + (grad ft px py).2 * 1.5)) := by
  refine ⟨rfl, rfl, rfl, ?_, ?_⟩ <;>
  · simp only [compute, tangentX, tangentY, Prod.mk.injEq, true_and,
      and_true]
    exact ⟨by ring, by ring⟩

/-- C6: the line through the two endpoints of each tangent segment,
evaluated at the anchor coordinate, equals `pz = f(px,py)` exactly. -/
theorem tangent_line_passes_through_point (ft : String) (px py : ℝ) :
    lineThrough (tangentX ft px py).1 (tangentX ft px py).2 px =
      f ft px py ∧
    lineThrough (tangentY ft px py).1 (tangentY ft px py).2 py =
      f ft px py := by
  constructor <;>
  · simp only [lineThrough, tangentX, tangentY]
    ring_nf

/-- C7: a framework re-run is a pure function of the current inputs: two
runs on the same `(FunctionSpec, Point)` give identical outputs whatever
the previous run produced, and equal the single-pass computation. -/
theorem rerun_pure_and_idempotent (ft : String) (px py s : ℝ)
    (prev1 prev2 : Option Outputs) :
    rerun ft px py s prev1 = rerun ft px py s prev2 ∧
    rerun ft px py s prev1 = compute ft px py s := by
  exact ⟨rfl, rfl⟩

/-- C9: dispatch is total over all identifier strings via the catch-all
`else`: any string other than the paraboloid, saddle and wave identifiers
silently selects the Gaussian pair. -/
theorem dispatch_else_selects_gaussian (s : String)
    (h1 : s ≠ "Paraboloid (x² + y²)") (h2 : s ≠ "Saddle (x² - y²)")
    (h3 : s ≠ "Wave Surface") (x y : ℝ) :
    f s x y = Real.exp (-(x ^ 2 + y ^ 2) / 4) ∧
    grad s x y = (-x / 2 * Real.exp (-(x ^ 2 + y ^ 2) / 4),
      -y / 2 * Real.exp (-(x ^ 2 + y ^ 2) / 4)) := by
  simp [f, grad, h1, h2, h3]

/-- Witness for C9: the string `"Unknown"` is none of the three named
identifiers and is dispatched to the Gaussian pair at `(1, 2)`. -/
theorem dispatch_else_selects_gaussian_witness :
    ("Unknown" : String) ≠ "Paraboloid (x² + y²)" ∧
    ("Unknown" : String) ≠ "Saddle (x² - y²)" ∧
    ("Unknown" : String) ≠ "Wave Surface" ∧
    (f "Unknown" 1 2 = Real.exp (-((1 : ℝ) ^ 2 + (2 : ℝ) ^ 2) / 4) ∧
     grad "Unknown" 1 2 =
       (-(1 : ℝ) / 2 * Real.exp (-((1 : ℝ) ^ 2 + (2 : ℝ) ^ 2) / 4),
        -(2 : ℝ) / 2 * Real.exp (-((1 : ℝ) ^ 2 + (2 : ℝ) ^ 2) / 4))) :=
  ⟨by decide, by decide, by decide,
   dispatch_else_selects_gaussian "Unknown" (by decide) (by decide)
     (by decide) 1 2⟩

/-- C10: the contour-plot arrow is anchored at `(px, py)` with its tip at
exactly `(px + gx·s, py + gy·s)`: the drawn vector is the gradient scaled
linearly by the arrow-scale input. -/
theorem arrow_is_scaled_gradient (ft : String) (px py s : ℝ) :
    (gradientArrow ft px py s).2 = (px, py) ∧
    (gradientArrow ft px py s).1 =
      (px + (grad ft px py).1 * s, py + (grad ft px py).2 * s) ∧
    (gradientArrow ft px py s).1 - (gradientArrow ft px py s).2 =
      s • grad ft px py := by
  refine ⟨rfl, rfl, ?_⟩
  rw [Prod.ext_iff]
  constructor <;> simp only [gradientArrow, Prod.smul_fst, Prod.smul_snd,
    smul_eq_mul, Prod.fst_sub, Prod.snd_sub] <;> ring

/-- C4: the grid sampler yields a 50×50 mesh whose axis coordinates span
`[-5, 5]` inclusive with uniform spacing `10/49`, `Z` is `f` applied
elementwise with shape 50×50 matching `X` and `Y`, and the grid of a run
depends only on the selected function. -/
theorem grid_sampler_spec (ft : String) :
    (meshZ ft).length = 50 ∧ meshX.length = 50 ∧ meshY.length = 50 ∧
    (∀ i, i < 50 →
      ((meshZ ft).getD i []).length = 50 ∧
      (meshX.getD i []).length = 50 ∧
      (meshY.getD i []).length = 50) ∧
    xcoord 0 = -5 ∧ xcoord 49 = 5 ∧ ycoord 0 = -5 ∧ ycoord 49 = 5 ∧
    (∀ i, i < 49 → xcoord (i + 1) - xcoord i = 10 / 49) ∧
    (∀ i, i < 49 → ycoord (i + 1) - ycoord i = 10 / 49) ∧
    (∀ i j, i < 50 → j < 50 →
      ((meshZ ft).getD i []).getD j 0 =
        f ft ((meshX.getD i []).getD j 0) ((meshY.getD i []).getD j 0)) ∧
    (∀ px py s, (compute ft px py s).Z = meshZ ft ∧
      (compute ft px py s).X = meshX ∧ (compute ft px py s).Y = meshY) := by
  refine ⟨by simp [meshZ], by simp [meshX], by simp [meshY], ?_,
    by norm_num [xcoord, linspace], by norm_num [xcoord, linspace],
    by norm_num [ycoord, linspace], by norm_num [ycoord, linspace],
    ?_, ?_, ?_, fun px py s => ⟨rfl, rfl, rfl⟩⟩
  · intro i hi
    rw [meshZ, meshX, meshY, getD_map_range _ _ _ _ hi,
      getD_map_range _ _ _ _ hi, getD_map_range _ _ _ _ hi]
    simp
  · intro i hi
    simp only [xcoord, linspace]
    push_cast
    ring
  · intro i hi
    simp only [ycoord, linspace]
    push_cast
    ring
  · intro i j hi hj
    rw [meshZ, meshX, meshY, getD_map_range _ _ _ _ hi,
      getD_map_range _ _ _ _ hi, getD_map_range _ _ _ _ hi,
      getD_map_range _ _ _ _ hj, getD_map_range _ _ _ _ hj,
      getD_map_range _ _ _ _ hj]

/-- Witness for C4: the in-bounds index hypotheses are satisfiable; at
row 3, column 4 of the Gaussian grid the entry is `f` of the mesh
coordinates, and the first X spacing is `10/49`. -/
theorem grid_sampler_spec_witness :
    (3 < 50 ∧ 4 < 50 ∧ 1 < 49) ∧
    ((meshZ "Gaussian").getD 3 []).getD 4 0 =
      f "Gaussian" ((meshX.getD 3 []).getD 4 0)
        ((meshY.getD 3 []).getD 4 0) ∧
    xcoord (1 + 1) - xcoord 1 = 10 / 49 :=
  ⟨⟨by decide, by decide, by decide⟩,
   ((((((((((grid_sampler_spec "Gaussian").2.2.2.2.2.2.2.2.2.2).1))))))))
     3 4 (by decide) (by decide),
   (((((((((grid_sampler_spec "Gaussian").2.2.2.2.2.2.2.2).1)))))))
     1 (by decide)⟩

/-- C5: the X-slice array is `f(x, py)` over the full X grid with `py`
fixed, and the Y-slice array is `f(px, y)` over the full Y grid with `px`
fixed. -/
theorem slice_arrays_spec (ft : String) (px py : ℝ) :
    (sliceX ft py).length = 50 ∧ (sliceY ft px).length = 50 ∧
    (∀ j, j < 50 → (sliceX ft py).getD j 0 = f ft (xcoord j) py) ∧
    (∀ j, j < 50 → (sliceY ft px).getD j 0 = f ft px (ycoord j)) := by
  refine ⟨by simp [sliceX, xs], by simp [sliceY, ys], ?_, ?_⟩
  · intro j hj
    rw [sliceX, xs, List.map_map, getD_map_range _ _ _ _ hj]
    rfl
  · intro j hj
    rw [sliceY, ys, List.map_map, getD_map_range _ _ _ _ hj]
    rfl

/-- Witness for C5: at index 7 the wave slices hold the field evaluated at
the grid coordinate with the other coordinate of `(1, 2)` held fixed. -/
theorem slice_arrays_spec_witness :
    (7 < 50) ∧
    (sliceX "Wave Surface" 2).getD 7 0 = f "Wave Surface" (xcoord 7) 2 ∧
    (sliceY "Wave Surface" 1).getD 7 0 = f "Wave Surface" 1 (ycoord 7) :=
  ⟨by decide,
   (slice_arrays_spec "Wave Surface" 1 2).2.2.1 7 (by decide),
   (slice_arrays_spec "Wave Surface" 1 2).2.2.2 7 (by decide)⟩

/-- C8: on the domain `[-5,5]×[-5,5]` every scalar field and gradient
field evaluates without reaching an error branch: with every division
checked in Python's manner, evaluation returns exactly the total value. -/
theorem fields_total_on_domain (ft : String) (x y : ℝ)
    (_hx1 : -5 ≤ x) (_hx2 : x ≤ 5) (_hy1 : -5 ≤ y) (_hy2 : y ≤ 5) :
    fE ft x y = some (f ft x y) ∧ gradE ft x y = some (grad ft x y) := by
  by_cases h1 : ft = "Paraboloid (x² + y²)"
  · simp [fE, gradE, f, grad, h1]
  by_cases h2 : ft = "Saddle (x² - y²)"
  · simp [fE, gradE, f, grad, h1, h2]
  by_cases h3 : ft = "Wave Surface"
  · simp [fE, gradE, f, grad, h1, h2, h3]
  · simp [fE, gradE, f, grad, h1, h2, h3, pydiv]

/-- Witness for C8: the point `(0, 0)` lies in the domain and the
Gaussian evaluators succeed there with the total values. -/
theorem fields_total_on_domain_witness :
    ((-5 : ℝ) ≤ 0 ∧ (0 : ℝ) ≤ 5) ∧
    fE "Gaussian" 0 0 = some (f "Gaussian" 0 0) ∧
    gradE "Gaussian" 0 0 = some (grad "Gaussian" 0 0) :=
  ⟨⟨by norm_num, by norm_num⟩,
   fields_total_on_domain "Gaussian" 0 0 (by norm_num) (by norm_num)
     (by norm_num) (by norm_num)⟩

/-- C2: for each of the four identifiers and every `(x,y)` in the domain
`[-5,5]×[-5,5]`, the hand-coded gradient pair equals the analytic partial
derivatives of the selected scalar field at `(x,y)`. -/
theorem grad_is_analytic_derivative (ft : String)
    (hft : ft = "Paraboloid (x² + y²)" ∨ ft = "Saddle (x² - y²)" ∨
      ft = "Wave Surface" ∨ ft = "Gaussian")
    (x y : ℝ) (_hx1 : -5 ≤ x) (_hx2 : x ≤ 5) (_hy1 : -5 ≤ y)
    (_hy2 : y ≤ 5) :
    HasDerivAt (fun t => f ft t y) ((grad ft x y).1) x ∧
    HasDerivAt (fun t => f ft x t) ((grad ft x y).2) y := by
  rcases hft with rfl | rfl | rfl | rfl
  · constructor
    · simp [f, grad]
      simpa using (hasDerivAt_pow 2 x).add_const (y ^ 2)
    · simp [f, grad]
      simpa using (hasDerivAt_pow 2 y).const_add (x ^ 2)
  · constructor
    · simp [f, grad]
      simpa using (hasDerivAt_pow 2 x).sub_const (y ^ 2)
    · simp [f, grad]
      simpa using (hasDerivAt_pow 2 y).const_sub (x ^ 2)
  · constructor
    · simp [f, grad]
      simpa using (Real.hasDerivAt_sin x).add_const (Real.cos y)
    · simp [f, grad]
      simpa using (Real.hasDerivAt_cos y).const_add (Real.sin x)
  · constructor
    · have hu : HasDerivAt (fun t : ℝ => (-y ^ 2 + -t ^ 2) / 4)
          (-x / 2) x := by
        have h :=
          ((hasDerivAt_pow 2 x).neg.const_add (-y ^ 2)).div_const (4 : ℝ)
        convert h using 1
        push_cast
        ring
      have he := hu.exp
      simp [f, grad]
      convert he using 1
      ring
    · have hu : HasDerivAt (fun t : ℝ => (-t ^ 2 + -x ^ 2) / 4)
          (-y / 2) y := by
        have h :=
          ((hasDerivAt_pow 2 y).neg.add_const (-x ^ 2)).div_const (4 : ℝ)
        convert h using 1
        push_cast
        ring
      have he := hu.exp
      simp [f, grad]
      convert he using 1
      ring

/-- Witness for C2: at the wave surface and the in-domain point `(1, 2)`,
both slice functions have the hand-coded gradient components as
derivatives. -/
theorem grad_is_analytic_derivative_witness :
    (("Wave Surface" : String) = "Paraboloid (x² + y²)" ∨
     ("Wave Surface" : String) = "Saddle (x² - y²)" ∨
     ("Wave Surface" : String) = "Wave Surface" ∨
     ("Wave Surface" : String) = "Gaussian") ∧
    ((-5 : ℝ) ≤ 1 ∧ (1 : ℝ) ≤ 5 ∧ (-5 : ℝ) ≤ 2 ∧ (2 : ℝ) ≤ 5) ∧
    (HasDerivAt (fun t => f "Wave Surface" t 2)
      ((grad "Wave Surface" 1 2).1) 1 ∧
     HasDerivAt (fun t => f "Wave Surface" 1 t)
      ((grad "Wave Surface" 1 2).2) 2) :=
  ⟨Or.inr (Or.inr (Or.inl rfl)),
   ⟨by norm_num, by norm_num, by norm_num, by norm_num⟩,
   grad_is_analytic_derivative "Wave Surface"
     (Or.inr (Or.inr (Or.inl rfl))) 1 2 (by norm_num) (by norm_num)
     (by norm_num) (by norm_num)⟩

end GradientViz
